import Mathlib

/-!
Shallow embedding of the form-event handlers of the rub-hrms repository
(`travel_claim.js`, `travel_authorization.js`, and the unnamed Travel
Adjustment script), together with theorems settling the specification
claims about them.

Field values that the host framework stores as arbitrary JS values and
feeds through the permissive numeric cast `flt` are modelled by `Val`;
string-valued fields (currencies, companies, employees, dates) are
modelled by `String`, with the empty string playing the role of a
missing / falsy value, matching the JS truthiness checks in the source.
Date comparison in the source is JS string comparison on `YYYY-MM-DD`
strings: lexicographic comparison of code units, modelled by `strLt`.
-/

/-- A field value fed to the numeric cast `flt`: either a numeric value
or a non-numeric / missing one. -/
inductive Val where
  | num (q : ℚ)
  | nonNum
deriving DecidableEq

/-- The framework cast `flt`: a numeric value is kept, a non-numeric or
missing value is coerced to 0. -/
def flt : Val → ℚ
  | Val.num q => q
  | Val.nonNum => 0

/-- Lexicographic strict comparison of character lists, the semantics of
the JS `<` operator on the strings compared in the source. -/
def strLtList : List Char → List Char → Bool
  | [], [] => false
  | [], _ :: _ => true
  | _ :: _, [] => false
  | a :: as, b :: bs => if a < b then true else if b < a then false else strLtList as bs

/-- JS string `<`: lexicographic comparison of code units. -/
def strLt (a b : String) : Bool := strLtList a.data b.data

/-- A Travel Claim Item child row (`travel_claim.js`, rows of `items`). -/
structure ClaimItem where
  mileage_rate : Val
  distance : Val
  mileage_amount : Val
  amount : Val
deriving DecidableEq

/-- The `calculate` handler on "Travel Claim Item"
(`travel_claim.js` lines 80-84): sets
`mileage_amount := flt(mileage_rate) * flt(distance)`, then
`amount := flt(mileage_amount) + flt(amount)` reading the freshly
written `mileage_amount` from the row. -/
def calculate (row : ClaimItem) : ClaimItem :=
  let row1 : ClaimItem :=
    { row with mileage_amount := Val.num (flt row.mileage_rate * flt row.distance) }
  { row1 with amount := Val.num (flt row1.mileage_amount + flt row1.amount) }

/-- A Travel Authorization Item / Travel Adjustment Item child row:
the fields touched by the date handlers. `from_date` and `to_date` are
`YYYY-MM-DD` strings ("" = unset); `halt` is the check field. -/
structure ItemRow where
  from_date : String
  to_date : String
  halt : Bool
deriving DecidableEq

/-- The validation message emitted by both `to_date` handlers. -/
def tcMsg : String := "To Date cannot be earlier than From Date"

/-- Assigning `to_date` on a "Travel Authorization Item" row and running
the `to_date` handler (`travel_authorization.js` lines 209-217),
including the re-entrant dispatch caused by the corrective
`frappe.model.set_value`; `fuel` bounds the dispatch depth (fuel 0 =
bare assignment, no handler runs). The second component collects the
`msgprint` diagnostics in emission order. -/
def set_to_date_auth : Nat → ItemRow → String → ItemRow × List String
  | 0, r, v => ({ r with to_date := v }, [])
  | n + 1, r, v =>
    let r1 : ItemRow := { r with to_date := v }
    if r1.from_date ≠ "" ∧ strLt r1.to_date r1.from_date = true then
      let p := set_to_date_auth n r1 r1.from_date
      (p.1, tcMsg :: p.2)
    else (r1, [])

/-- Assigning `from_date` on a "Travel Authorization Item" row and
running the `from_date` handler (`travel_authorization.js` lines
200-207): when `halt` is unchecked, the new `from_date` differs from
`to_date` and is set, it assigns `to_date := from_date` through
`frappe.model.set_value`, which dispatches the `to_date` handler. -/
def set_from_date_auth : Nat → ItemRow → String → ItemRow × List String
  | 0, r, v => ({ r with from_date := v }, [])
  | n + 1, r, v =>
    let r1 : ItemRow := { r with from_date := v }
    if r1.halt = false ∧ r1.from_date ≠ r1.to_date then
      if r1.from_date ≠ "" then set_to_date_auth n r1 r1.from_date
      else (r1, [])
    else (r1, [])

/-- Assigning `to_date` on a "Travel Adjustment Item" row and running
its `to_date` handler (unnamed script lines 22-32); same logic as the
authorization variant, diagnostic shown via `frappe.msgprint` with the
same message text. -/
def set_to_date_adj : Nat → ItemRow → String → ItemRow × List String
  | 0, r, v => ({ r with to_date := v }, [])
  | n + 1, r, v =>
    let r1 : ItemRow := { r with to_date := v }
    if r1.from_date ≠ "" ∧ strLt r1.to_date r1.from_date = true then
      let p := set_to_date_adj n r1 r1.from_date
      (p.1, tcMsg :: p.2)
    else (r1, [])

/-- Assigning `from_date` on a "Travel Adjustment Item" row and running
its `from_date` handler (unnamed script lines 15-20): the guard is the
single conjunction `from_date && !halt && from_date !== to_date`. -/
def set_from_date_adj : Nat → ItemRow → String → ItemRow × List String
  | 0, r, v => ({ r with from_date := v }, [])
  | n + 1, r, v =>
    let r1 : ItemRow := { r with from_date := v }
    if r1.from_date ≠ "" ∧ r1.halt = false ∧ r1.from_date ≠ r1.to_date then
      set_to_date_adj n r1 r1.from_date
    else (r1, [])

/-- The parent-document fields touched by the Travel Claim /
Travel Authorization handlers. String fields use "" for unset/falsy. -/
structure Doc where
  employee : String
  company : String
  currency : String
  exchange_rate : ℚ
  exchange_rate_hidden : Bool
  exchange_rate_description : String
  reports_to : String
  approver : String
deriving DecidableEq

/-- A call made to an external collaborator service during a handler
run, recorded with its arguments. -/
inductive RpcCall where
  | salaryCurrency (employee : String)
  | companyCurrency (company : String)
  | exchangeRate (fromCurrency toCurrency : String)
  | reportsTo (employee : String)
  | approver (employee : String)
deriving DecidableEq

/-- The collaborator environment: the responses of the external
services the handlers consult. "" encodes an empty/falsy response. -/
structure Env where
  defaultCompany : String
  companyCurrency : String → String
  exchangeRate : String → String → Val
  salaryCurrency : String → String
  reportsTo : String → String
  approver : String → String

/-- Modelled from the spec: `erpnext.get_currency` is a framework
collaborator absent from this repository. Per the spec it returns "the
company's default currency (another collaborator lookup keyed by the
document's company field, or a global default company if company is
unset)". -/
def get_currency (env : Env) (company : String) : String :=
  if company = "" then env.companyCurrency env.defaultCompany
  else env.companyCurrency company

/-- The callback of `set_exchange_rate` (`travel_claim.js` lines 58-66,
`travel_authorization.js` lines 154-162), run when a rate response `msg`
arrives: unconditionally sets `exchange_rate := flt(msg)`, unhides the
field, and rewrites the description from the document's currency as it
stands at arrival time and the captured `company_currency`. -/
def xchg_callback (company_currency : String) (msg : Val) (d : Doc) : Doc :=
  { d with
    exchange_rate := flt msg,
    exchange_rate_hidden := false,
    exchange_rate_description := "1 " ++ d.currency ++ " = [?] " ++ company_currency }

/-- `set_exchange_rate` (`travel_claim.js` lines 51-68,
`travel_authorization.js` lines 147-164) resolved synchronously: issues
the exchange-rate query for (from_currency, company_currency) and
applies the callback to the service's response. -/
def set_exchange_rate (env : Env) (d : Doc) (from_currency company_currency : String) :
    Doc × List RpcCall :=
  (xchg_callback company_currency (env.exchangeRate from_currency company_currency) d,
   [RpcCall.exchangeRate from_currency company_currency])

/-- The company argument the `currency` handler passes to
`erpnext.get_currency` (`travel_claim.js` lines 35-39,
`travel_authorization.js` lines 131-135): the document's company, or
`frappe.defaults.get_default("Company")` when company is unset. -/
def resolved_company (env : Env) (d : Doc) : String :=
  if d.company = "" then env.defaultCompany else d.company

/-- The company currency the `currency` handler compares against. -/
def resolved_currency (env : Env) (d : Doc) : String :=
  get_currency env (resolved_company env d)

/-- The `currency` handler (`travel_claim.js` lines 31-49,
`travel_authorization.js` lines 127-145, identical bodies): when the
document currency is set, resolves the company currency; if different,
runs `set_exchange_rate`, otherwise sets `exchange_rate := 1.0`, hides
the field and clears its description. -/
def currency_handler (env : Env) (d : Doc) : Doc × List RpcCall :=
  if d.currency = "" then (d, [])
  else
    let from_currency := d.currency
    let company_currency := resolved_currency env d
    if from_currency ≠ company_currency then
      let p := set_exchange_rate env d from_currency company_currency
      (p.1, RpcCall.companyCurrency (resolved_company env d) :: p.2)
    else
      ({ d with
          exchange_rate := 1,
          exchange_rate_hidden := true,
          exchange_rate_description := "" },
       [RpcCall.companyCurrency (resolved_company env d)])

/-- The `get_employee_currency` handler (`travel_claim.js` lines 18-29,
`travel_authorization.js` lines 114-125, identical bodies): queries the
Salary Structure of the document's employee for a currency; a truthy
response becomes the document currency, otherwise the currency falls
back to `erpnext.get_currency(frm.doc.company)` (the raw company field,
no default substitution in this handler). -/
def get_employee_currency (env : Env) (d : Doc) : Doc × List RpcCall :=
  let rc := env.salaryCurrency d.employee
  if rc ≠ "" then
    ({ d with currency := rc }, [RpcCall.salaryCurrency d.employee])
  else
    ({ d with currency := get_currency env d.company },
     [RpcCall.salaryCurrency d.employee, RpcCall.companyCurrency d.company])

/-- The `employee` handler of "Travel Claim" (`travel_claim.js` lines
14-16): when employee is set, triggers `get_employee_currency`. -/
def employee_handler_claim (env : Env) (d : Doc) : Doc × List RpcCall :=
  if d.employee ≠ "" then get_employee_currency env d else (d, [])

/-- `set_reports_to` (`travel_authorization.js` lines 165-180): when
employee is set, queries the reports-to lookup and stores a truthy
response in `reports_to`. -/
def set_reports_to (env : Env) (d : Doc) : Doc × List RpcCall :=
  if d.employee ≠ "" then
    let r := env.reportsTo d.employee
    (if r ≠ "" then { d with reports_to := r } else d, [RpcCall.reportsTo d.employee])
  else (d, [])

/-- `set_approver` (`travel_authorization.js` lines 181-196): when
employee is set, queries the approver lookup and stores a truthy
response in `approver`. -/
def set_approver (env : Env) (d : Doc) : Doc × List RpcCall :=
  if d.employee ≠ "" then
    let r := env.approver d.employee
    (if r ≠ "" then { d with approver := r } else d, [RpcCall.approver d.employee])
  else (d, [])

/-- The `employee` handler of "Travel Authorization"
(`travel_authorization.js` lines 103-112): when employee is set,
triggers `get_employee_currency`, `set_reports_to` and `set_approver`
in that order. -/
def employee_handler_auth (env : Env) (d : Doc) : Doc × List RpcCall :=
  if d.employee ≠ "" then
    let p := get_employee_currency env d
    let q := set_reports_to env p.1
    let s := set_approver env q.1
    (s.1, p.2 ++ q.2 ++ s.2)
  else (d, [])

/-- One-shot description of a `to_date` assignment with full dispatch:
clamp and diagnostic when the new value is earlier than a set
`from_date`, plain assignment otherwise. -/
def to_date_step (r : ItemRow) (v : String) : ItemRow × List String :=
  if r.from_date ≠ "" ∧ strLt v r.from_date = true then
    ({ r with to_date := r.from_date }, [tcMsg])
  else ({ r with to_date := v }, [])

/-- One-shot description of a `from_date` assignment with full dispatch:
auto-fill of `to_date` when `halt` is unchecked and the new set value
differs from `to_date`, plain assignment otherwise. -/
def from_date_step (r : ItemRow) (v : String) : ItemRow × List String :=
  if r.halt = false ∧ v ≠ r.to_date ∧ v ≠ "" then
    ({ r with from_date := v, to_date := v }, [])
  else ({ r with from_date := v }, [])

/-- A sample collaborator environment: every company's currency is
"INR", the exchange service answers 83.5, the other lookups are empty. -/
def envINR : Env :=
  { defaultCompany := "BT"
    companyCurrency := fun _ => "INR"
    exchangeRate := fun _ _ => Val.num (167 / 2)
    salaryCurrency := fun _ => ""
    reportsTo := fun _ => ""
    approver := fun _ => "" }

/-- A sample environment whose salary-structure lookup answers "USD". -/
def envUSD : Env := { envINR with salaryCurrency := fun _ => "USD" }

/-- A sample document holding currency "USD" with company "CorpA". -/
def docUSD : Doc := ⟨"", "CorpA", "USD", 0, true, "", "", ""⟩

/-- A sample document holding currency "INR" with company "CorpA". -/
def docINR : Doc := ⟨"", "CorpA", "INR", 0, false, "x", "", ""⟩

/-- A sample document with employee "E1" set and currency unset. -/
def docEmp : Doc := ⟨"E1", "CorpA", "", 0, false, "", "", ""⟩

/-- A sample document with every trigger field unset. -/
def docNone : Doc := ⟨"", "", "", 0, false, "", "", ""⟩

/-- The document state after its currency was edited to "USD" and then
to "EUR" while both exchange-rate requests are still in flight. -/
def docEUR : Doc := ⟨"", "", "EUR", 0, true, "", "", ""⟩

theorem strLtList_irrefl : ∀ l : List Char, strLtList l l = false
  | [] => rfl
  | a :: as => by simp [strLtList, strLtList_irrefl as]

theorem strLt_irrefl (s : String) : strLt s s = false :=
  strLtList_irrefl s.data

theorem strLtList_nil_right : ∀ l : List Char, strLtList l [] = false
  | [] => rfl
  | _ :: _ => rfl

theorem strLt_empty_right (s : String) : strLt s "" = false :=
  strLtList_nil_right s.data

theorem set_to_date_auth_self (n : Nat) (r : ItemRow) :
    set_to_date_auth n r r.from_date = ({ r with to_date := r.from_date }, []) := by
  cases n with
  | zero => rfl
  | succ m => simp [set_to_date_auth, strLt_irrefl]

theorem set_to_date_adj_self (n : Nat) (r : ItemRow) :
    set_to_date_adj n r r.from_date = ({ r with to_date := r.from_date }, []) := by
  cases n with
  | zero => rfl
  | succ m => simp [set_to_date_adj, strLt_irrefl]

theorem set_to_date_auth_eq (n : Nat) (r : ItemRow) (v : String) :
    set_to_date_auth (n + 1) r v = to_date_step r v := by
  show (if ({ r with to_date := v } : ItemRow).from_date ≠ "" ∧
      strLt ({ r with to_date := v } : ItemRow).to_date
        ({ r with to_date := v } : ItemRow).from_date = true then
      let p := set_to_date_auth n { r with to_date := v }
        ({ r with to_date := v } : ItemRow).from_date
      (p.1, tcMsg :: p.2)
    else ({ r with to_date := v }, [])) = to_date_step r v
  by_cases h : r.from_date ≠ "" ∧ strLt v r.from_date = true
  · have hself := set_to_date_auth_self n { r with to_date := v }
    simp only [to_date_step, h, if_pos, if_true, hself]
  · simp [to_date_step, h]

theorem set_to_date_adj_eq (n : Nat) (r : ItemRow) (v : String) :
    set_to_date_adj (n + 1) r v = to_date_step r v := by
  show (if ({ r with to_date := v } : ItemRow).from_date ≠ "" ∧
      strLt ({ r with to_date := v } : ItemRow).to_date
        ({ r with to_date := v } : ItemRow).from_date = true then
      let p := set_to_date_adj n { r with to_date := v }
        ({ r with to_date := v } : ItemRow).from_date
      (p.1, tcMsg :: p.2)
    else ({ r with to_date := v }, [])) = to_date_step r v
  by_cases h : r.from_date ≠ "" ∧ strLt v r.from_date = true
  · have hself := set_to_date_adj_self n { r with to_date := v }
    simp only [to_date_step, h, if_pos, if_true, hself]
  · simp [to_date_step, h]

theorem set_from_date_auth_eq (n : Nat) (r : ItemRow) (v : String) :
    set_from_date_auth (n + 1) r v = from_date_step r v := by
  show (if ({ r with from_date := v } : ItemRow).halt = false ∧
      ({ r with from_date := v } : ItemRow).from_date ≠
        ({ r with from_date := v } : ItemRow).to_date then
      if ({ r with from_date := v } : ItemRow).from_date ≠ "" then
        set_to_date_auth n { r with from_date := v }
          ({ r with from_date := v } : ItemRow).from_date
      else ({ r with from_date := v }, [])
    else ({ r with from_date := v }, [])) = from_date_step r v
  by_cases h1 : r.halt = false ∧ v ≠ r.to_date
  · by_cases h2 : v ≠ ""
    · obtain ⟨hh, hne⟩ := h1
      rw [if_pos (show ({ r with from_date := v } : ItemRow).halt = false ∧
            ({ r with from_date := v } : ItemRow).from_date ≠
              ({ r with from_date := v } : ItemRow).to_date from ⟨hh, hne⟩),
        if_pos (show ({ r with from_date := v } : ItemRow).from_date ≠ "" from h2),
        set_to_date_auth_self n { r with from_date := v }]
      unfold from_date_step
      rw [if_pos (show r.halt = false ∧ v ≠ r.to_date ∧ v ≠ "" from ⟨hh, hne, h2⟩)]
    · simp only [from_date_step]
      simp [h1, h2]
  · simp only [from_date_step]
    have h3 : ¬(r.halt = false ∧ v ≠ r.to_date ∧ v ≠ "") := by tauto
    simp [h1, h3]

theorem set_from_date_adj_eq (n : Nat) (r : ItemRow) (v : String) :
    set_from_date_adj (n + 1) r v = from_date_step r v := by
  show (if ({ r with from_date := v } : ItemRow).from_date ≠ "" ∧
      ({ r with from_date := v } : ItemRow).halt = false ∧
      ({ r with from_date := v } : ItemRow).from_date ≠
        ({ r with from_date := v } : ItemRow).to_date then
      set_to_date_adj n { r with from_date := v }
        ({ r with from_date := v } : ItemRow).from_date
    else ({ r with from_date := v }, [])) = from_date_step r v
  by_cases h : v ≠ "" ∧ r.halt = false ∧ v ≠ r.to_date
  · obtain ⟨hz, hh, hne⟩ := h
    rw [if_pos (show ({ r with from_date := v } : ItemRow).from_date ≠ "" ∧
          ({ r with from_date := v } : ItemRow).halt = false ∧
          ({ r with from_date := v } : ItemRow).from_date ≠
            ({ r with from_date := v } : ItemRow).to_date from ⟨hz, hh, hne⟩),
      set_to_date_adj_self n { r with from_date := v }]
    unfold from_date_step
    rw [if_pos (show r.halt = false ∧ v ≠ r.to_date ∧ v ≠ "" from ⟨hh, hne, hz⟩)]
  · simp only [from_date_step]
    have h2 : ¬(r.halt = false ∧ v ≠ r.to_date ∧ v ≠ "") := by tauto
    simp [h, h2]

theorem set_reports_to_currency (env : Env) (d : Doc) :
    (set_reports_to env d).1.currency = d.currency := by
  unfold set_reports_to
  by_cases h1 : d.employee ≠ "" <;> by_cases h2 : env.reportsTo d.employee ≠ "" <;>
    simp [h1, h2]

theorem set_approver_currency (env : Env) (d : Doc) :
    (set_approver env d).1.currency = d.currency := by
  unfold set_approver
  by_cases h1 : d.employee ≠ "" <;> by_cases h2 : env.approver d.employee ≠ "" <;>
    simp [h1, h2]

theorem get_employee_currency_currency (env : Env) (d : Doc) :
    (get_employee_currency env d).1.currency =
      if env.salaryCurrency d.employee ≠ "" then env.salaryCurrency d.employee
      else get_currency env d.company := by
  unfold get_employee_currency
  by_cases hs : env.salaryCurrency d.employee ≠ "" <;> simp [hs]

theorem get_employee_currency_calls (env : Env) (d : Doc) :
    RpcCall.salaryCurrency d.employee ∈ (get_employee_currency env d).2 := by
  unfold get_employee_currency
  by_cases hs : env.salaryCurrency d.employee ≠ "" <;> simp [hs]

theorem get_employee_currency_employee (env : Env) (d : Doc) :
    (get_employee_currency env d).1.employee = d.employee := by
  unfold get_employee_currency
  by_cases hs : env.salaryCurrency d.employee ≠ "" <;> simp [hs]

theorem employee_handler_auth_currency (env : Env) (d : Doc) (he : d.employee ≠ "") :
    (employee_handler_auth env d).1.currency = (get_employee_currency env d).1.currency := by
  unfold employee_handler_auth
  rw [if_pos he]
  exact (set_approver_currency env
    (set_reports_to env (get_employee_currency env d).1).1).trans
    (set_reports_to_currency env (get_employee_currency env d).1)

theorem employee_handler_auth_calls (env : Env) (d : Doc) (he : d.employee ≠ "") :
    RpcCall.salaryCurrency d.employee ∈ (employee_handler_auth env d).2 := by
  unfold employee_handler_auth
  rw [if_pos he]
  exact List.mem_append_left _ (List.mem_append_left _ (get_employee_currency_calls env d))

theorem get_currency_ite (env : Env) (c : String) :
    get_currency env c =
      env.companyCurrency (if c = "" then env.defaultCompany else c) := by
  unfold get_currency
  by_cases hc : c = "" <;> simp [hc]

theorem currency_handler_currency (env : Env) (d : Doc) :
    (currency_handler env d).1.currency = d.currency := by
  unfold currency_handler set_exchange_rate xchg_callback
  by_cases h1 : d.currency = ""
  · simp [h1]
  · by_cases h2 : d.currency ≠ resolved_currency env d <;> simp [h1, h2]

theorem currency_handler_employee (env : Env) (d : Doc) :
    (currency_handler env d).1.employee = d.employee := by
  unfold currency_handler set_exchange_rate xchg_callback
  by_cases h1 : d.currency = ""
  · simp [h1]
  · by_cases h2 : d.currency ≠ resolved_currency env d <;> simp [h1, h2]

theorem to_date_step_invariant (r : ItemRow) (v : String) :
    strLt (to_date_step r v).1.to_date (to_date_step r v).1.from_date = false := by
  unfold to_date_step
  by_cases h : r.from_date ≠ "" ∧ strLt v r.from_date = true
  · rw [if_pos h]
    exact strLt_irrefl r.from_date
  · rw [if_neg h]
    by_cases hf : r.from_date = ""
    · show strLt v r.from_date = false
      rw [hf]
      exact strLt_empty_right v
    · have h2 : ¬strLt v r.from_date = true := fun ht => h ⟨hf, ht⟩
      exact Bool.eq_false_iff.mpr h2

theorem from_date_step_invariant (r : ItemRow) (v : String) (hh : r.halt = false) :
    strLt (from_date_step r v).1.to_date (from_date_step r v).1.from_date = false := by
  unfold from_date_step
  by_cases h : r.halt = false ∧ v ≠ r.to_date ∧ v ≠ ""
  · rw [if_pos h]
    exact strLt_irrefl v
  · rw [if_neg h]
    have hcase : v = r.to_date ∨ v = "" := by tauto
    cases hcase with
    | inl h1 =>
      show strLt r.to_date v = false
      rw [h1]
      exact strLt_irrefl r.to_date
    | inr h2 =>
      show strLt r.to_date v = false
      rw [h2]
      exact strLt_empty_right r.to_date

/-- Claim C1: for every Travel Claim Item row, `calculate` sets
`mileage_amount` to `flt(mileage_rate) * flt(distance)` and then adds
it onto the current `amount` (cumulative, not an overwrite); with
`mileage_rate = 2, distance = 3, amount = 0` one firing yields
`mileage_amount = 6, amount = 6`, a second unchanged firing yields
`amount = 12`. -/
theorem C1_mileage_cumulative :
    ∀ row : ClaimItem,
      (calculate row).mileage_amount = Val.num (flt row.mileage_rate * flt row.distance) ∧
      (calculate row).amount =
        Val.num (flt row.mileage_rate * flt row.distance + flt row.amount) ∧
      calculate ⟨Val.num 2, Val.num 3, Val.nonNum, Val.num 0⟩ =
        ⟨Val.num 2, Val.num 3, Val.num 6, Val.num 6⟩ ∧
      calculate (calculate ⟨Val.num 2, Val.num 3, Val.nonNum, Val.num 0⟩) =
        ⟨Val.num 2, Val.num 3, Val.num 6, Val.num 12⟩ := by
  intro row
  refine ⟨rfl, ?_, ?_, ?_⟩
  · simp [calculate, flt]
  · norm_num [calculate, flt]
  · norm_num [calculate, flt]

/-- Claim C2: when the document currency is set and differs from the
resolved company currency, the `currency` handler queries the exchange
service with (from = document currency, to = company currency), sets
`exchange_rate` to the `flt`-coerced response, unhides the field and
sets the description "1 FROM = [?] TO". -/
theorem C2_exchange_rate_differs :
    ∀ (env : Env) (d : Doc),
      d.currency ≠ "" →
      d.currency ≠ resolved_currency env d →
      currency_handler env d =
        ({ d with
            exchange_rate := flt (env.exchangeRate d.currency (resolved_currency env d)),
            exchange_rate_hidden := false,
            exchange_rate_description :=
              "1 " ++ d.currency ++ " = [?] " ++ resolved_currency env d },
         [RpcCall.companyCurrency (resolved_company env d),
          RpcCall.exchangeRate d.currency (resolved_currency env d)]) := by
  intro env d h1 h2
  simp [currency_handler, set_exchange_rate, xchg_callback, h1, h2]

theorem C2_witness :
    docUSD.currency ≠ "" ∧
    docUSD.currency ≠ resolved_currency envINR docUSD ∧
    currency_handler envINR docUSD =
      ({ docUSD with
          exchange_rate :=
            flt (envINR.exchangeRate docUSD.currency (resolved_currency envINR docUSD)),
          exchange_rate_hidden := false,
          exchange_rate_description :=
            "1 " ++ docUSD.currency ++ " = [?] " ++ resolved_currency envINR docUSD },
       [RpcCall.companyCurrency (resolved_company envINR docUSD),
        RpcCall.exchangeRate docUSD.currency (resolved_currency envINR docUSD)]) :=
  ⟨by decide, by decide,
   C2_exchange_rate_differs envINR docUSD (by decide) (by decide)⟩

/-- Claim C3: when the document currency is set and equals the resolved
company currency (the document company's currency, or the global
default company's when company is unset), the `currency` handler sets
`exchange_rate := 1.0`, hides the field, clears its description, and
makes no exchange-rate service call. -/
theorem C3_exchange_rate_equal :
    ∀ (env : Env) (d : Doc),
      d.currency ≠ "" →
      d.currency = resolved_currency env d →
      currency_handler env d =
        ({ d with
            exchange_rate := 1,
            exchange_rate_hidden := true,
            exchange_rate_description := "" },
         [RpcCall.companyCurrency (resolved_company env d)]) ∧
      resolved_currency env d =
        env.companyCurrency (if d.company = "" then env.defaultCompany else d.company) := by
  intro env d h1 h2
  constructor
  · have hne : ¬d.currency ≠ resolved_currency env d := fun hx => hx h2
    simp only [currency_handler]
    rw [if_neg h1, if_neg hne]
  · unfold resolved_currency resolved_company
    by_cases hc : d.company = ""
    · rw [if_pos hc, get_currency_ite]
      by_cases hd : env.defaultCompany = "" <;> simp [hc, hd]
    · rw [if_neg hc, get_currency_ite]
      simp [hc]

theorem C3_witness :
    docINR.currency ≠ "" ∧
    docINR.currency = resolved_currency envINR docINR ∧
    (currency_handler envINR docINR =
      ({ docINR with
          exchange_rate := 1,
          exchange_rate_hidden := true,
          exchange_rate_description := "" },
       [RpcCall.companyCurrency (resolved_company envINR docINR)]) ∧
     resolved_currency envINR docINR =
       envINR.companyCurrency
         (if docINR.company = "" then envINR.defaultCompany else docINR.company)) :=
  ⟨by decide, by decide,
   C3_exchange_rate_equal envINR docINR (by decide) (by decide)⟩

/-- Claim C4: when the employee field is set, both employee handlers
query the salary-structure lookup for the employee's currency; a found
code becomes the document currency, otherwise the currency falls back
to the company's default currency (document company, or the global
default company when company is unset — the latter resolution sits in
the spec-modelled collaborator `get_currency`). -/
theorem C4_currency_sync :
    ∀ (env : Env) (d : Doc),
      d.employee ≠ "" →
      (env.salaryCurrency d.employee ≠ "" →
        (employee_handler_claim env d).1.currency = env.salaryCurrency d.employee ∧
        (employee_handler_auth env d).1.currency = env.salaryCurrency d.employee) ∧
      (env.salaryCurrency d.employee = "" →
        (employee_handler_claim env d).1.currency =
          env.companyCurrency (if d.company = "" then env.defaultCompany else d.company) ∧
        (employee_handler_auth env d).1.currency =
          env.companyCurrency (if d.company = "" then env.defaultCompany else d.company)) ∧
      RpcCall.salaryCurrency d.employee ∈ (employee_handler_claim env d).2 ∧
      RpcCall.salaryCurrency d.employee ∈ (employee_handler_auth env d).2 := by
  intro env d he
  have hclaim : employee_handler_claim env d = get_employee_currency env d := by
    unfold employee_handler_claim
    rw [if_pos he]
  refine ⟨fun hs => ?_, fun hs => ?_, ?_, ?_⟩
  · rw [hclaim, employee_handler_auth_currency env d he,
      get_employee_currency_currency, if_pos hs]
    exact ⟨rfl, rfl⟩
  · rw [hclaim, employee_handler_auth_currency env d he,
      get_employee_currency_currency, if_neg (by simp [hs]), get_currency_ite]
    exact ⟨rfl, rfl⟩
  · rw [hclaim]
    exact get_employee_currency_calls env d
  · exact employee_handler_auth_calls env d he

theorem C4_witness :
    docEmp.employee ≠ "" ∧
    envUSD.salaryCurrency docEmp.employee ≠ "" ∧
    (employee_handler_claim envUSD docEmp).1.currency = envUSD.salaryCurrency docEmp.employee ∧
    (employee_handler_auth envUSD docEmp).1.currency = envUSD.salaryCurrency docEmp.employee :=
  ⟨by decide, by decide,
   ((C4_currency_sync envUSD docEmp (by decide)).1 (by decide)).1,
   ((C4_currency_sync envUSD docEmp (by decide)).1 (by decide)).2⟩

/-- Claim C5: on a `from_date` edit with `halt` unchecked, the new value
set and different from `to_date`, both item variants auto-fill
`to_date := from_date`; with `halt` checked the edit leaves `to_date`
unchanged (e.g. `from_date = to_date = 2025-01-10`, `halt = true`,
editing `from_date` to `2025-01-15` leaves `to_date` at `2025-01-10`). -/
theorem C5_from_date_rule :
    ∀ (r : ItemRow) (v : String) (n : Nat),
      (r.halt = false → v ≠ "" → v ≠ r.to_date →
        (set_from_date_auth (n + 1) r v).1.to_date = v ∧
        (set_from_date_adj (n + 1) r v).1.to_date = v ∧
        (set_from_date_auth (n + 1) r v).1.from_date = v ∧
        (set_from_date_adj (n + 1) r v).1.from_date = v) ∧
      (r.halt = true →
        (set_from_date_auth (n + 1) r v).1.to_date = r.to_date ∧
        (set_from_date_adj (n + 1) r v).1.to_date = r.to_date) := by
  intro r v n
  rw [set_from_date_auth_eq, set_from_date_adj_eq]
  constructor
  · intro hh hv ht
    unfold from_date_step
    rw [if_pos ⟨hh, ht, hv⟩]
    exact ⟨rfl, rfl, rfl, rfl⟩
  · intro hh
    unfold from_date_step
    rw [if_neg (by simp [hh])]
    exact ⟨rfl, rfl⟩

theorem C5_witness :
    (⟨"2025-01-10", "2025-01-10", true⟩ : ItemRow).halt = true ∧
    (set_from_date_auth 1 ⟨"2025-01-10", "2025-01-10", true⟩ "2025-01-15").1.to_date =
      "2025-01-10" ∧
    (set_from_date_auth 1 ⟨"2025-01-01", "2025-01-02", false⟩ "2025-01-15").1.to_date =
      "2025-01-15" :=
  ⟨rfl,
   ((C5_from_date_rule ⟨"2025-01-10", "2025-01-10", true⟩ "2025-01-15" 0).2 rfl).1,
   ((C5_from_date_rule ⟨"2025-01-01", "2025-01-02", false⟩ "2025-01-15" 0).1 rfl
     (by decide) (by decide)).1⟩

/-- Claim C6: on a `to_date` edit with `from_date` set, both item
variants emit the diagnostic "To Date cannot be earlier than From Date"
and clamp `to_date := from_date` when the new value is earlier than
`from_date`; otherwise they emit nothing and change no other field. -/
theorem C6_to_date_rule :
    ∀ (r : ItemRow) (v : String) (n : Nat),
      r.from_date ≠ "" →
      (strLt v r.from_date = true →
        set_to_date_auth (n + 1) r v = ({ r with to_date := r.from_date }, [tcMsg]) ∧
        set_to_date_adj (n + 1) r v = ({ r with to_date := r.from_date }, [tcMsg])) ∧
      (strLt v r.from_date = false →
        set_to_date_auth (n + 1) r v = ({ r with to_date := v }, []) ∧
        set_to_date_adj (n + 1) r v = ({ r with to_date := v }, [])) := by
  intro r v n hf
  rw [set_to_date_auth_eq, set_to_date_adj_eq]
  constructor
  · intro hlt
    unfold to_date_step
    rw [if_pos ⟨hf, hlt⟩]
    exact ⟨rfl, rfl⟩
  · intro hge
    unfold to_date_step
    rw [if_neg (by simp [hge])]
    exact ⟨rfl, rfl⟩

theorem C6_witness :
    (⟨"2025-01-10", "2025-01-12", false⟩ : ItemRow).from_date ≠ "" ∧
    strLt "2025-01-05" "2025-01-10" = true ∧
    set_to_date_auth 1 ⟨"2025-01-10", "2025-01-12", false⟩ "2025-01-05" =
      (⟨"2025-01-10", "2025-01-10", false⟩, [tcMsg]) ∧
    strLt "2025-01-15" "2025-01-10" = false ∧
    set_to_date_auth 1 ⟨"2025-01-10", "2025-01-12", false⟩ "2025-01-15" =
      (⟨"2025-01-10", "2025-01-15", false⟩, []) :=
  ⟨by decide, by decide,
   ((C6_to_date_rule ⟨"2025-01-10", "2025-01-12", false⟩ "2025-01-05" 0 (by decide)).1
     (by decide)).1,
   by decide,
   ((C6_to_date_rule ⟨"2025-01-10", "2025-01-12", false⟩ "2025-01-15" 0 (by decide)).2
     (by decide)).1⟩

/-- Claim C7 counterexample: the row `from_date = to_date = 2025-01-10`
with `halt = true`, edited to `from_date = 2025-01-15` with full
dispatch, ends with both dates set and `to_date` strictly earlier than
`from_date` — the claimed invariant does not survive `from_date` edits
made while `halt` is engaged. -/
theorem C7_counterexample :
    (set_from_date_auth 2 ⟨"2025-01-10", "2025-01-10", true⟩ "2025-01-15").1.from_date ≠ "" ∧
    (set_from_date_auth 2 ⟨"2025-01-10", "2025-01-10", true⟩ "2025-01-15").1.to_date ≠ "" ∧
    strLt (set_from_date_auth 2 ⟨"2025-01-10", "2025-01-10", true⟩ "2025-01-15").1.to_date
      (set_from_date_auth 2 ⟨"2025-01-10", "2025-01-10", true⟩ "2025-01-15").1.from_date =
      true := by
  decide

/-- Claim C7 (amended): after every `to_date` edit-and-dispatch step the
invariant "`to_date` is not earlier than `from_date`" holds, and after
every `from_date` edit-and-dispatch step it holds provided `halt` is not
engaged; a `from_date` edit while `halt` is engaged can violate it. -/
theorem C7_date_invariant :
    ∀ (r : ItemRow) (v : String) (n : Nat),
      strLt (set_to_date_auth (n + 1) r v).1.to_date
        (set_to_date_auth (n + 1) r v).1.from_date = false ∧
      strLt (set_to_date_adj (n + 1) r v).1.to_date
        (set_to_date_adj (n + 1) r v).1.from_date = false ∧
      (r.halt = false →
        strLt (set_from_date_auth (n + 1) r v).1.to_date
          (set_from_date_auth (n + 1) r v).1.from_date = false ∧
        strLt (set_from_date_adj (n + 1) r v).1.to_date
          (set_from_date_adj (n + 1) r v).1.from_date = false) := by
  intro r v n
  rw [set_to_date_auth_eq, set_to_date_adj_eq, set_from_date_auth_eq, set_from_date_adj_eq]
  exact ⟨to_date_step_invariant r v, to_date_step_invariant r v,
    fun hh => ⟨from_date_step_invariant r v hh, from_date_step_invariant r v hh⟩⟩

theorem C7_witness :
    strLt (set_to_date_auth 1 ⟨"2025-01-10", "2025-01-12", false⟩ "2025-01-05").1.to_date
      (set_to_date_auth 1 ⟨"2025-01-10", "2025-01-12", false⟩ "2025-01-05").1.from_date =
      false ∧
    (⟨"2025-01-01", "2025-01-05", false⟩ : ItemRow).halt = false ∧
    strLt (set_from_date_auth 1 ⟨"2025-01-01", "2025-01-05", false⟩ "2025-01-03").1.to_date
      (set_from_date_auth 1 ⟨"2025-01-01", "2025-01-05", false⟩ "2025-01-03").1.from_date =
      false :=
  ⟨(C7_date_invariant ⟨"2025-01-10", "2025-01-12", false⟩ "2025-01-05" 0).1,
   rfl,
   ((C7_date_invariant ⟨"2025-01-01", "2025-01-05", false⟩ "2025-01-03" 0).2.2 rfl).1⟩

/-- Claim C8: dispatch terminates. Every re-entrant chain reaches its
fixed point within one nested hop: the date-edit dispatches are
insensitive to any extra fuel beyond the first handler invocation, the
`currency` handler never rewrites a trigger-bearing field (`currency`,
`employee`), `get_employee_currency` never rewrites `employee`, and
`calculate` never rewrites its own triggers (`mileage_rate`,
`distance`). -/
theorem C8_dispatch_terminates :
    ∀ (n : Nat) (r : ItemRow) (v : String) (env : Env) (d : Doc) (row : ClaimItem),
      set_to_date_auth (n + 1) r v = set_to_date_auth 1 r v ∧
      set_to_date_adj (n + 1) r v = set_to_date_adj 1 r v ∧
      set_from_date_auth (n + 1) r v = set_from_date_auth 1 r v ∧
      set_from_date_adj (n + 1) r v = set_from_date_adj 1 r v ∧
      (currency_handler env d).1.currency = d.currency ∧
      (currency_handler env d).1.employee = d.employee ∧
      (get_employee_currency env d).1.employee = d.employee ∧
      (calculate row).mileage_rate = row.mileage_rate ∧
      (calculate row).distance = row.distance := by
  intro n r v env d row
  exact ⟨(set_to_date_auth_eq n r v).trans (set_to_date_auth_eq 0 r v).symm,
    (set_to_date_adj_eq n r v).trans (set_to_date_adj_eq 0 r v).symm,
    (set_from_date_auth_eq n r v).trans (set_from_date_auth_eq 0 r v).symm,
    (set_from_date_adj_eq n r v).trans (set_from_date_adj_eq 0 r v).symm,
    currency_handler_currency env d, currency_handler_employee env d,
    get_employee_currency_employee env d, rfl, rfl⟩

/-- Claim C9 counterexample: the document's currency was edited to
"USD" and then to "EUR" with both rate requests in flight. The
response to the latest request (EUR, rate 90) arrives first; the stale
response to the first request (USD, rate 83.5) arrives last. The code
has no request token: the stale response is applied and the final
`exchange_rate` is 83.5, not the latest request's 90 — refuting the
claim that stale responses are ignored. -/
theorem C9_counterexample :
    (xchg_callback "INR" (Val.num (167 / 2))
        (xchg_callback "INR" (Val.num 90) docEUR)).exchange_rate ≠ flt (Val.num 90) ∧
    (xchg_callback "INR" (Val.num (167 / 2))
        (xchg_callback "INR" (Val.num 90) docEUR)).exchange_rate = flt (Val.num (167 / 2)) := by
  refine ⟨?_, rfl⟩
  show (167 : ℚ) / 2 ≠ 90
  norm_num

/-- Claim C9 (amended): the exchange-rate callbacks carry no request
token; every response that arrives is applied unconditionally,
overwriting `exchange_rate` with its own `flt`-coerced rate, unhiding
the field and rewriting the description from the document's current
currency. The document therefore reflects the last response to arrive,
which may belong to a superseded request. -/
theorem C9_last_response_wins :
    ∀ (cc : String) (v : Val) (d : Doc),
      (xchg_callback cc v d).exchange_rate = flt v ∧
      (xchg_callback cc v d).exchange_rate_hidden = false ∧
      (xchg_callback cc v d).exchange_rate_description =
        "1 " ++ d.currency ++ " = [?] " ++ cc :=
  fun _ _ _ => ⟨rfl, rfl, rfl⟩

/-- Claim C10: a handler whose triggering field is empty is a no-op on
document state and performs no collaborator lookups: both `employee`
handlers with an empty employee, and the `currency` handler with an
empty currency, return the document unchanged and an empty call list. -/
theorem C10_empty_trigger_noop :
    ∀ (env : Env) (d : Doc),
      (d.employee = "" →
        employee_handler_claim env d = (d, []) ∧
        employee_handler_auth env d = (d, [])) ∧
      (d.currency = "" → currency_handler env d = (d, [])) := by
  intro env d
  constructor
  · intro h
    constructor
    · unfold employee_handler_claim
      rw [if_neg (by simp [h])]
    · unfold employee_handler_auth
      rw [if_neg (by simp [h])]
  · intro h
    unfold currency_handler
    rw [if_pos h]

theorem C10_witness :
    docNone.employee = "" ∧ docNone.currency = "" ∧
    employee_handler_claim envINR docNone = (docNone, []) ∧
    employee_handler_auth envINR docNone = (docNone, []) ∧
    currency_handler envINR docNone = (docNone, []) :=
  ⟨rfl, rfl,
   ((C10_empty_trigger_noop envINR docNone).1 rfl).1,
   ((C10_empty_trigger_noop envINR docNone).1 rfl).2,
   (C10_empty_trigger_noop envINR docNone).2 rfl⟩
